import Mathlib

/-!
Verification model of mwha2mqtt: a shallow embedding of the zone/attribute
data model (src/common/src/zone.rs), the amplifier protocol driver
(src/mwha2mqttd/src/amp.rs), the MQTT subscription manager
(src/common/src/mqtt.rs) and the synchronization worker
(src/mwha2mqttd/src/main.rs), together with theorems about them.

Machine integers (u8) are modelled as Nat; every value the embedded code
constructs stays far below 2^8 unless noted otherwise at the definition.
Byte streams are lists of Nat (byte values); fallible Rust functions
returning Result are modelled with Except or Option, and a Rust panic is a
distinguished outcome where it can occur.
-/

/-! ## Addressing and attribute model (src/common/src/zone.rs) -/

deriving instance DecidableEq for Except

def MAX_AMPS : Nat := 3

def MAX_ZONES_PER_AMP : Nat := 6

/-- Inclusive attribute value ranges from `zone.rs` `pub mod ranges`,
as (lo, hi) pairs. -/
def ranges.VOLUME : Nat × Nat := (0, 38)

def ranges.TREBLE : Nat × Nat := (0, 14)

def ranges.BASS : Nat × Nat := (0, 14)

def ranges.BALANCE : Nat × Nat := (0, 20)

def ranges.SOURCE : Nat × Nat := (1, 6)

/-- Tagged attribute values, mirroring `enum ZoneAttribute`. -/
inductive ZoneAttribute where
  | publicAnnouncement (v : Bool)
  | power (v : Bool)
  | mute (v : Bool)
  | doNotDisturb (v : Bool)
  | volume (v : Nat)
  | treble (v : Nat)
  | bass (v : Nat)
  | balance (v : Nat)
  | source (v : Nat)
  | keypadConnected (v : Bool)
deriving DecidableEq

/-- Attribute kinds, mirroring the strum-generated `ZoneAttributeDiscriminants`. -/
inductive ZoneAttributeDiscriminants where
  | publicAnnouncement
  | power
  | mute
  | doNotDisturb
  | volume
  | treble
  | bass
  | balance
  | source
  | keypadConnected
deriving DecidableEq

/-- Mirrors `ZoneAttributeDiscriminants::from` / `std::mem::discriminant`. -/
def ZoneAttribute.discriminant : ZoneAttribute → ZoneAttributeDiscriminants
  | .publicAnnouncement _ => .publicAnnouncement
  | .power _ => .power
  | .mute _ => .mute
  | .doNotDisturb _ => .doNotDisturb
  | .volume _ => .volume
  | .treble _ => .treble
  | .bass _ => .bass
  | .balance _ => .balance
  | .source _ => .source
  | .keypadConnected _ => .keypadConnected

inductive ZoneAttributeError where
  | valueOutOfRange (attr : ZoneAttribute) (lo hi : Nat)
deriving DecidableEq

/-- Mirrors `ZoneAttribute::validate`: numeric variants are checked against
their fixed inclusive range (`RangeInclusive::contains`), boolean variants
are always valid. -/
def ZoneAttribute.validate (a : ZoneAttribute) : Except ZoneAttributeError Unit :=
  match a with
  | .volume v =>
    if ranges.VOLUME.1 ≤ v ∧ v ≤ ranges.VOLUME.2 then .ok ()
    else .error (.valueOutOfRange a ranges.VOLUME.1 ranges.VOLUME.2)
  | .treble v =>
    if ranges.TREBLE.1 ≤ v ∧ v ≤ ranges.TREBLE.2 then .ok ()
    else .error (.valueOutOfRange a ranges.TREBLE.1 ranges.TREBLE.2)
  | .bass v =>
    if ranges.BASS.1 ≤ v ∧ v ≤ ranges.BASS.2 then .ok ()
    else .error (.valueOutOfRange a ranges.BASS.1 ranges.BASS.2)
  | .balance v =>
    if ranges.BALANCE.1 ≤ v ∧ v ≤ ranges.BALANCE.2 then .ok ()
    else .error (.valueOutOfRange a ranges.BALANCE.1 ranges.BALANCE.2)
  | .source v =>
    if ranges.SOURCE.1 ≤ v ∧ v ≤ ranges.SOURCE.2 then .ok ()
    else .error (.valueOutOfRange a ranges.SOURCE.1 ranges.SOURCE.2)
  | _ => .ok ()

/-- Mirrors `ZoneAttributeDiscriminants::read_only`. -/
def ZoneAttributeDiscriminants.readOnly : ZoneAttributeDiscriminants → Bool
  | .publicAnnouncement => true
  | .keypadConnected => true
  | _ => false

/-- Kebab-case attribute names produced by `self.to_string().to_kebab_case()`
on the strum `Display` of each variant. -/
def ZoneAttributeDiscriminants.kebabName : ZoneAttributeDiscriminants → String
  | .publicAnnouncement => "public-announcement"
  | .power => "power"
  | .mute => "mute"
  | .doNotDisturb => "do-not-disturb"
  | .volume => "volume"
  | .treble => "treble"
  | .bass => "bass"
  | .balance => "balance"
  | .source => "source"
  | .keypadConnected => "keypad-connected"

/-- Mirrors `enum ZoneId`. -/
inductive ZoneId where
  | zone (amp zone : Nat)
  | amp (amp : Nat)
  | system
deriving DecidableEq

inductive ZoneIdError where
  | ampOutOfRange (v : Nat)
  | zoneOutOfRange (v : Nat)
deriving DecidableEq

/-- Mirrors `impl TryFrom<u8> for ZoneId`. -/
def ZoneId.tryFrom (value : Nat) : Except ZoneIdError ZoneId :=
  let amp := value / 10
  let zone := value % 10
  if amp = 0 ∧ zone = 0 then .ok .system
  else if 1 ≤ amp ∧ amp ≤ MAX_AMPS then
    if zone = 0 then .ok (.amp amp)
    else if 1 ≤ zone ∧ zone ≤ MAX_ZONES_PER_AMP then .ok (.zone amp zone)
    else .error (.zoneOutOfRange value)
  else .error (.ampOutOfRange value)

/-- Mirrors `impl From<&ZoneId> for u8`: `(amp * 10) + zone`. For every
ZoneId the program constructs, amp ≤ MAX_AMPS and zone ≤ MAX_ZONES_PER_AMP,
so the u8 arithmetic cannot overflow and plain Nat arithmetic is exact. -/
def ZoneId.toU8 : ZoneId → Nat
  | .zone a z => a * 10 + z
  | .amp a => a * 10
  | .system => 0

/-- Mirrors the Rust `{:02}` formatting of a Nat below 100. -/
def natPad2 (n : Nat) : String :=
  if n < 10 then "0" ++ toString n else toString n

/-- Mirrors `impl Display for ZoneId`: the byte encoding printed as `{:02}`. -/
def ZoneId.display (z : ZoneId) : String := natPad2 z.toU8

/-! ## Device protocol driver (src/mwha2mqttd/src/amp.rs)

The driver owns a duplex byte stream. The stream is modelled as the list of
bytes still waiting to be read (`input`) plus the bytes written so far
(`written`); a read on an exhausted stream is the read-timeout/IO-error
path of `Port::read`, modelled as `none`. -/

structure AmpState where
  input : List Nat
  written : List Nat
deriving DecidableEq

def asciiOf (s : String) : List Nat := s.data.map Char.toNat

/-- Mirrors `Amp::END_OF_RESPONSE_MARKER` = b"\r\n#". -/
def END_OF_RESPONSE_MARKER : List Nat := asciiOf "\r\n#"

/-- Mirrors the command-error body b"\r\nCommand Error." checked by
`read_command_response`. -/
def commandErrorBody : List Nat := asciiOf "\r\nCommand Error."

inductive AmpError where
  | readFailed
  | commandError
  | echoMismatch (got expected : List Nat)
deriving DecidableEq

/-- Mirrors `Amp::read_until`: read one byte at a time, appending to
`buffer`, until the buffer ends with `marker`. Returns the buffer and the
unread remainder of the stream, or `none` for a read error. -/
def readUntil (marker buffer input : List Nat) : Option (List Nat × List Nat) :=
  if marker.isSuffixOf buffer then some (buffer, input)
  else
    match input with
    | [] => none
    | b :: rest => readUntil marker (buffer ++ [b]) rest
termination_by structural input

/-- Mirrors `Amp::read_command_response`: read up to the end-of-response
marker, strip the marker, and fail distinctly when the body is the literal
device error string. The second component is the unread remainder. -/
def readCommandResponse (input : List Nat) : Except AmpError (List Nat) × List Nat :=
  match readUntil END_OF_RESPONSE_MARKER [] input with
  | none => (.error .readFailed, [])
  | some (buffer, rest) =>
    let body := buffer.take (buffer.length - END_OF_RESPONSE_MARKER.length)
    if body = commandErrorBody then (.error .commandError, rest)
    else (.ok body, rest)

/-- Mirrors the response-reading loop of `Amp::exec_command`
(`for _i in 0..expected_responses`). -/
def readResponses : Nat → List Nat → Except AmpError (List (List Nat)) × List Nat
  | 0, input => (.ok [], input)
  | n + 1, input =>
    match readCommandResponse input with
    | (.error e, rest) => (.error e, rest)
    | (.ok body, rest) =>
      match readResponses n rest with
      | (.error e, rest') => (.error e, rest')
      | (.ok bodies, rest') => (.ok (body :: bodies), rest')

/-- Mirrors `Amp::exec_command`: write the command bytes plus a carriage
return, read the echo frame, fail with an echo-mismatch error when the echo
is not byte-for-byte the command, otherwise read the expected response
frames. -/
def execCommand (command : List Nat) (expectedResponses : Nat) (st : AmpState) :
    Except AmpError (List (List Nat)) × AmpState :=
  let written := st.written ++ command ++ [13]
  match readCommandResponse st.input with
  | (.error e, rest) => (.error e, ⟨rest, written⟩)
  | (.ok echo, rest) =>
    if echo = command then
      match readResponses expectedResponses rest with
      | (r, rest') => (r, ⟨rest', written⟩)
    else (.error (.echoMismatch echo command), ⟨rest, written⟩)

/-- Expected reply tail after the marker in `Amp::resync`:
`format!("{}\r\n#\r\nCommand Error.\r\n#", marker)` minus the marker. -/
def resyncReplySuffix : List Nat := asciiOf "\r\n#\r\nCommand Error.\r\n#"

/-- Mirrors `Amp::resync`. The freshly sampled random alphanumeric marker
string (`format!("resync{}", random8)`) is passed in as `marker`; resync
writes it as a bogus command and reads until the stream ends with the
expected echo-plus-error reply for it. -/
def resync (marker : List Nat) (st : AmpState) : Option AmpState :=
  let cmd := marker ++ [13]
  let reply := marker ++ resyncReplySuffix
  match readUntil reply [] st.input with
  | none => none
  | some (_, rest) => some ⟨rest, st.written ++ cmd⟩

/-- Mirrors `ZoneStatus` in amp.rs. -/
structure ZoneStatus where
  id : ZoneId
  attributes : List ZoneAttribute
deriving DecidableEq

/-- Outcome of code that can return Ok, return Err, or panic. -/
inductive ParseOutcome (α : Type) where
  | ok (a : α)
  | err
  | panicked
deriving DecidableEq

def isAsciiDigit (b : Nat) : Bool := 48 ≤ b && b ≤ 57

/-- Mirrors `str::from_utf8` followed by `str::parse::<u8>` on one 2-byte
chunk of a response. Rust's u8 parser accepts two decimal digits, and also
a leading '+' followed by one digit; every other pair fails, either as
invalid UTF-8 or as a parse error — both make the enclosing call fail, so
they are collapsed into `none`. -/
def parsePairU8 (b1 b2 : Nat) : Option Nat :=
  if isAsciiDigit b1 && isAsciiDigit b2 then some ((b1 - 48) * 10 + (b2 - 48))
  else if b1 = 43 && isAsciiDigit b2 then some (b2 - 48)
  else none

/-- Mirrors `chunks_exact(2)`: a trailing odd byte is dropped. -/
def chunksExact2 : List Nat → List (Nat × Nat)
  | a :: b :: rest => (a, b) :: chunksExact2 rest
  | _ => []

/-- Mirrors `collect::<Result<Vec<u8>>>` over the parsed pairs: the first
failing pair fails the whole collection. -/
def parsePairs : List (Nat × Nat) → Option (List Nat)
  | [] => some []
  | p :: rest =>
    match parsePairU8 p.1 p.2 with
    | none => none
    | some v =>
      match parsePairs rest with
      | none => none
      | some vs => some (v :: vs)

/-- Mirrors the response-parsing closure in `Amp::zone_enquiry` on one
response frame. `resp[1..]` on an empty frame, `values[0]` on a frame with
no parsed pair, and `values[1]`..`values[10]` on a frame with fewer than
eleven parsed pairs are out-of-bounds indexings: they panic. The zone id
is decoded (with `?`-early-return on error) before the attribute values
are indexed. -/
def parseZoneStatus (resp : List Nat) : ParseOutcome ZoneStatus :=
  match resp with
  | [] => .panicked
  | _ :: body =>
    match parsePairs (chunksExact2 body) with
    | none => .err
    | some values =>
      match values with
      | [] => .panicked
      | v0 :: vrest =>
        match ZoneId.tryFrom v0 with
        | .error _ => .err
        | .ok id =>
          match vrest with
          | v1 :: v2 :: v3 :: v4 :: v5 :: v6 :: v7 :: v8 :: v9 :: v10 :: _ =>
            .ok ⟨id, [.publicAnnouncement (v1 != 0), .power (v2 != 0),
              .mute (v3 != 0), .doNotDisturb (v4 != 0), .volume v5,
              .treble v6, .bass v7, .balance v8, .source v9,
              .keypadConnected (v10 != 0)]⟩
          | _ => .panicked

/-- Mirrors `collect::<Result<Vec<ZoneStatus>>>` over the response frames:
frames are parsed in order, the first failing frame decides the outcome. -/
def parseZoneStatuses : List (List Nat) → ParseOutcome (List ZoneStatus)
  | [] => .ok []
  | r :: rs =>
    match parseZoneStatus r with
    | .err => .err
    | .panicked => .panicked
    | .ok s =>
      match parseZoneStatuses rs with
      | .err => .err
      | .panicked => .panicked
      | .ok ss => .ok (s :: ss)

/-- Command and response-count selection plus execution in
`Amp::zone_enquiry`. The source `match id` has no `System` arm; that value
never reaches this function, and is mapped to the panicked outcome. -/
def zoneEnquiry (id : ZoneId) (st : AmpState) :
    ParseOutcome (List ZoneStatus) × AmpState :=
  match id with
  | .zone a z =>
    match execCommand (asciiOf ("?" ++ toString a ++ toString z)) 1 st with
    | (.error _, st') => (.err, st')
    | (.ok resps, st') => (parseZoneStatuses resps, st')
  | .amp a =>
    match execCommand (asciiOf ("?" ++ toString a ++ toString 0)) 6 st with
    | (.error _, st') => (.err, st')
    | (.ok resps, st') => (parseZoneStatuses resps, st')
  | .system => (.panicked, st)

/-- Modelled from the spec: `ZoneAttributeDiscriminants::io_range` is
called by `set_zone_attribute` but is not defined anywhere under src/.
The spec declares the inclusive device I/O ranges Volume 0–38, Treble
0–14, Bass 0–14, Balance 0–20, Source 1–6; the boolean attributes carry
0/1 on the wire. -/
def ZoneAttributeDiscriminants.ioRange : ZoneAttributeDiscriminants → Nat × Nat
  | .volume => ranges.VOLUME
  | .treble => ranges.TREBLE
  | .bass => ranges.BASS
  | .balance => ranges.BALANCE
  | .source => ranges.SOURCE
  | _ => (0, 1)

/-- Two-letter device command codes and wire values from the `match attr`
in `Amp::set_zone_attribute`; `none` is the `bail!` arm for the
unchangeable (read-only) attributes. -/
def attrCommandCode : ZoneAttribute → Option (String × Nat)
  | .power v => some ("PR", cond v 1 0)
  | .mute v => some ("MU", cond v 1 0)
  | .doNotDisturb v => some ("DT", cond v 1 0)
  | .volume v => some ("VO", v)
  | .treble v => some ("TR", v)
  | .bass v => some ("BS", v)
  | .balance v => some ("BL", v)
  | .source v => some ("CH", v)
  | _ => none

inductive SetOutcome where
  | ok
  | errUnchangeable
  | errAmp (e : AmpError)
  | panicOutOfRange
deriving DecidableEq

/-- Mirrors `Amp::set_zone_attribute`: look up the I/O range, reject
unchangeable attributes with an error, then — when the value is outside
the range — the source panics ("out of range") instead of returning;
otherwise format `<{id}{code}{value:02}` and execute it expecting zero
response frames. -/
def setZoneAttribute (id : ZoneId) (attr : ZoneAttribute) (st : AmpState) :
    SetOutcome × AmpState :=
  let range := attr.discriminant.ioRange
  match attrCommandCode attr with
  | none => (.errUnchangeable, st)
  | some (code, val) =>
    if range.1 ≤ val ∧ val ≤ range.2 then
      match execCommand (asciiOf ("<" ++ id.display ++ code ++ natPad2 val)) 0 st with
      | (.error e, st') => (.errAmp e, st')
      | (.ok _, st') => (.ok, st')
    else (.panicOutOfRange, st)

/-! ## Association-list model of `std::collections::HashMap`

Insertion replaces the value of an existing key in place; lookup finds the
unique entry for a key; removal deletes it. -/

def alistLookup {α β : Type} [DecidableEq α] : List (α × β) → α → Option β
  | [], _ => none
  | (k', v') :: rest, k => if k' = k then some v' else alistLookup rest k

def alistInsert {α β : Type} [DecidableEq α] : List (α × β) → α → β → List (α × β)
  | [], k, v => [(k, v)]
  | (k', v') :: rest, k, v =>
    if k' = k then (k, v) :: rest else (k', v') :: alistInsert rest k v

def alistRemove {α β : Type} [DecidableEq α] : List (α × β) → α → List (α × β)
  | [], _ => []
  | (k', v') :: rest, k => if k' = k then rest else (k', v') :: alistRemove rest k

/-! ## Synchronization worker (src/mwha2mqttd/src/main.rs, spawn_amp_worker) -/

/-- Mirrors `enum ChannelMessage`. -/
inductive ChannelMessage where
  | zoneStatusChanged (id : ZoneId) (attr : ZoneAttribute)
  | poison
deriving DecidableEq

/-- Mirrors one cycle's channel drain in `spawn_amp_worker`: the blocking
`recv_timeout` and the following non-blocking `try_recv` loop both insert
into the `adjustments` map keyed by `(id, discriminant(attr))`, so a later
change for the same key overwrites an earlier one. `pending` is the
sequence of messages queued on the channel; `none` is the `Poison` arm,
which returns from the worker immediately. -/
def drainLoop : List ChannelMessage →
    List ((ZoneId × ZoneAttributeDiscriminants) × (ZoneId × ZoneAttribute)) →
    Option (List ((ZoneId × ZoneAttributeDiscriminants) × (ZoneId × ZoneAttribute)))
  | [], adjustments => some adjustments
  | .poison :: _, _ => none
  | .zoneStatusChanged id attr :: rest, adjustments =>
    drainLoop rest (alistInsert adjustments (id, attr.discriminant) (id, attr))

/-- Mirrors the `let ids = match *id` expansion in the adjustment-apply
loop of `spawn_amp_worker`. -/
def adjustmentTargets : ZoneId → List ZoneId
  | .zone a z => [.zone a z]
  | .amp a => [.amp a]
  | .system => [.amp 1, .amp 2, .amp 3]

/-- Device writes of one worker cycle: the coalesced adjustment values,
each expanded over its target ids and sent via `set_zone_attribute`.
`none` means the cycle saw the poison message and the worker returned. -/
def cycleDeviceWrites (pending : List ChannelMessage) :
    Option (List (ZoneId × ZoneAttribute)) :=
  (drainLoop pending []).map (fun adjustments =>
    adjustments.flatMap (fun kv =>
      (adjustmentTargets kv.2.1).map (fun i => (i, kv.2.2))))

/-- One MQTT publication: all worker status publications are retained. -/
structure MqttMessage where
  topic : String
  payload : String
  retain : Bool
deriving DecidableEq

/-- Mirrors the `json!` value match in `spawn_amp_worker`: every payload
is the bare JSON scalar of the attribute's value. -/
def jsonScalar : ZoneAttribute → String
  | .publicAnnouncement v => cond v "true" "false"
  | .power v => cond v "true" "false"
  | .mute v => cond v "true" "false"
  | .doNotDisturb v => cond v "true" "false"
  | .volume v => toString v
  | .treble v => toString v
  | .bass v => toString v
  | .balance v => toString v
  | .source v => toString v
  | .keypadConnected v => cond v "true" "false"

/-- Status message for one attribute of one zone, from
`format!("{}status/zone/{}/{}", topic_base, zone_status.id, attr_name)`
and `publish_json(topic, QoS, true, value)`. -/
def attrStatusMessage (topicBase : String) (id : ZoneId) (a : ZoneAttribute) :
    MqttMessage :=
  { topic := topicBase ++ "status/zone/" ++ id.display ++ "/" ++ a.discriminant.kebabName
    payload := jsonScalar a
    retain := true }

/-- Mirrors `previous_status.map_or(false, |ps| ps.attributes.iter().any(|pa| *pa == *attr))`:
skip publishing an attribute whose exact value appears in the previous
snapshot. -/
def diffSkip (previous : Option ZoneStatus) (a : ZoneAttribute) : Bool :=
  match previous with
  | some ps => ps.attributes.contains a
  | none => false

/-- Mirrors the attribute loop of one zone's diff publication in
`spawn_amp_worker`. -/
def diffAttrs (topicBase : String) (previous : Option ZoneStatus) (id : ZoneId) :
    List ZoneAttribute → List MqttMessage
  | [] => []
  | a :: rest =>
    if diffSkip previous a then diffAttrs topicBase previous id rest
    else attrStatusMessage topicBase id a :: diffAttrs topicBase previous id rest

/-- Messages published for one polled zone status against the previous
cycle's snapshot for that zone (if any). -/
def publishZoneStatusDiff (topicBase : String) (previous : Option ZoneStatus)
    (zs : ZoneStatus) : List MqttMessage :=
  diffAttrs topicBase previous zs.id zs.attributes

/-- Full ten-attribute snapshot of zone 11 used as a concrete poll result;
`vol` is the Volume value, everything else fixed. -/
def exampleStatus (vol : Nat) : ZoneStatus :=
  ⟨.zone 1 1,
    [.publicAnnouncement false, .power true, .mute false, .doNotDisturb false,
     .volume vol, .treble 7, .bass 7, .balance 10, .source 1,
     .keypadConnected true]⟩

/-! ## Startup metadata publication (src/mwha2mqttd/src/main.rs, publish_metadata) -/

/-- Mirrors `SourceConfig` in config.rs. -/
structure SourceConfig where
  name : String
  enabled : Bool
deriving DecidableEq

/-- Mirrors `ZoneConfig` in config.rs. -/
structure ZoneConfig where
  name : String
deriving DecidableEq

/-- Mirrors the `zone_type` match in `publish_metadata`. -/
def zoneTypeString : ZoneId → String
  | .zone _ _ => "zone"
  | .amp _ => "amp"
  | .system => "system"

/-- serde_json rendering of a string value. The configuration names used
here contain no characters that need JSON escaping, for which this naive
quoting matches serde_json. -/
def jsonString (s : String) : String := "\"" ++ s ++ "\""

def jsonBool (b : Bool) : String := cond b "true" "false"

/-- serde_json rendering of `Vec<u8>`. -/
def jsonNatArray (l : List Nat) : String :=
  "[" ++ String.intercalate "," (l.map toString) ++ "]"

/-- Mirrors `publish_metadata`: the `connected` value, per-source name and
enabled flags, the configured zone id list, and per-zone name and type.
The zone-list publish in the source passes the literal topic string
"\x7b\x7d/status/zones" — the string is not a `format!` call — which this
definition reproduces verbatim. -/
def publishMetadata (topicBase : String) (sources : List (Nat × SourceConfig))
    (zones : List (ZoneId × ZoneConfig)) : List MqttMessage :=
  [⟨topicBase ++ "connected", "2", true⟩]
  ++ sources.flatMap (fun s =>
      [⟨topicBase ++ "status/source/" ++ toString s.1 ++ "/name", jsonString s.2.name, true⟩,
       ⟨topicBase ++ "status/source/" ++ toString s.1 ++ "/enabled", jsonBool s.2.enabled, true⟩])
  ++ [⟨"\x7b\x7d/status/zones", jsonNatArray (zones.map (fun z => z.1.toU8)), true⟩]
  ++ zones.flatMap (fun z =>
      [⟨topicBase ++ "status/zone/" ++ z.1.display ++ "/name", jsonString z.2.name, true⟩,
       ⟨topicBase ++ "status/zone/" ++ z.1.display ++ "/type", jsonString (zoneTypeString z.1), true⟩])

/-! ## Subscription correlation manager (src/common/src/mqtt.rs)

The handler thread of `MqttConnectionManager` processes connection events
strictly sequentially. Handlers are identified by a Nat; the state carries
the outgoing handler queue (the crossbeam channel filled by `subscribe`),
the pkid-keyed pending table and the topic-keyed active table. -/

inductive MqttEvent where
  | outgoingSubscribe (pkid : Nat)
  | incomingSubAck (pkid : Nat)
  | incomingPublish (topic : String) (payload : String)
  | incomingConnAck
  | outgoingDisconnect
  | otherEvent
deriving DecidableEq

structure HandlerTableState where
  outgoingQueue : List (String × Nat)
  pending : List (Nat × (String × Nat))
  active : List (String × Nat)
deriving DecidableEq

inductive DispatchOutput where
  | invoked (handler : Nat) (topic payload : String)
  | droppedUnknownTopic (topic payload : String)
  | warnUnknownSubAck (pkid : Nat)
deriving DecidableEq

/-- One iteration of the `for notification in connection.iter()` match in
`spawn_handler_thread`. An outgoing Subscribe dequeues the next handler
sent by `subscribe` and files it under the packet id; a SubAck moves the
handler with the matching packet id into the active table (an unknown
pkid is only warned about); an incoming Publish is dispatched to the
active handler for its exact topic, or logged and dropped. -/
def mqttStep (st : HandlerTableState) :
    MqttEvent → HandlerTableState × List DispatchOutput
  | .incomingConnAck => (st, [])
  | .incomingPublish topic payload =>
    match alistLookup st.active topic with
    | some h => (st, [.invoked h topic payload])
    | none => (st, [.droppedUnknownTopic topic payload])
  | .outgoingSubscribe pkid =>
    match st.outgoingQueue with
    | [] => (st, [])
    | th :: rest =>
      ({ st with outgoingQueue := rest, pending := alistInsert st.pending pkid th }, [])
  | .incomingSubAck pkid =>
    match alistLookup st.pending pkid with
    | some th =>
      ({ st with pending := alistRemove st.pending pkid,
                 active := alistInsert st.active th.1 th.2 }, [])
    | none => (st, [.warnUnknownSubAck pkid])
  | .outgoingDisconnect => (st, [])
  | .otherEvent => (st, [])

/-- Runs the handler thread over a finite event trace, collecting dispatch
outputs in order; an outgoing Disconnect ends the loop. -/
def mqttRun (st : HandlerTableState) :
    List MqttEvent → HandlerTableState × List DispatchOutput
  | [] => (st, [])
  | e :: es =>
    if e = .outgoingDisconnect then (st, [])
    else
      match mqttStep st e with
      | (st', out) =>
        match mqttRun st' es with
        | (st'', outs) => (st'', out ++ outs)

/-- Mirrors `MqttConnectionManager::subscribe`: the handler is sent on the
outgoing channel (and the subscribe packet handed to the client). -/
def mqttSubscribe (st : HandlerTableState) (topic : String) (handler : Nat) :
    HandlerTableState :=
  { st with outgoingQueue := st.outgoingQueue ++ [(topic, handler)] }

/-- Concrete sample of the random marker `resync` generates:
"resync" followed by eight alphanumeric characters. -/
def resyncMarkerSample : List Nat := asciiOf "resyncAAAAAAAA"

/-- Expected echo-plus-error reply for the sample marker. -/
def resyncReplySample : List Nat := resyncMarkerSample ++ resyncReplySuffix

/-! ## Theorems for the addressing model -/

/-- C1: decoding the encoded byte form of every valid ZoneId yields the
original ZoneId, and encoding System yields 0. -/
theorem zoneid_roundtrip :
    (∀ a z, 1 ≤ a → a ≤ MAX_AMPS → 1 ≤ z → z ≤ MAX_ZONES_PER_AMP →
      ZoneId.tryFrom (ZoneId.toU8 (.zone a z)) = .ok (.zone a z))
    ∧ (∀ a, 1 ≤ a → a ≤ MAX_AMPS →
      ZoneId.tryFrom (ZoneId.toU8 (.amp a)) = .ok (.amp a))
    ∧ ZoneId.tryFrom (ZoneId.toU8 .system) = .ok .system
    ∧ ZoneId.toU8 .system = 0 := by
  refine ⟨?_, ?_, by decide, by decide⟩
  · intro a z h1 h2 h3 h4
    simp only [MAX_AMPS] at h2
    simp only [MAX_ZONES_PER_AMP] at h4
    interval_cases a <;> interval_cases z <;> decide
  · intro a h1 h2
    simp only [MAX_AMPS] at h2
    interval_cases a <;> decide

/-- C1 witness: the round-trip theorem applied at amp 2, zone 3 and amp 1. -/
theorem zoneid_roundtrip_witness :
    ZoneId.tryFrom (ZoneId.toU8 (.zone 2 3)) = .ok (.zone 2 3)
    ∧ ZoneId.tryFrom (ZoneId.toU8 (.amp 1)) = .ok (.amp 1) :=
  ⟨zoneid_roundtrip.1 2 3 (by decide) (by decide) (by decide) (by decide),
   zoneid_roundtrip.2.1 1 (by decide) (by decide)⟩

/-- C9: each numeric attribute validates exactly against its declared
inclusive range and otherwise yields a ValueOutOfRange error carrying that
range; every boolean-carrying attribute always validates. -/
theorem validate_ranges :
    (∀ v : Nat,
      ZoneAttribute.validate (.volume v)
        = (if v ≤ 38 then .ok () else .error (.valueOutOfRange (.volume v) 0 38))
      ∧ ZoneAttribute.validate (.treble v)
        = (if v ≤ 14 then .ok () else .error (.valueOutOfRange (.treble v) 0 14))
      ∧ ZoneAttribute.validate (.bass v)
        = (if v ≤ 14 then .ok () else .error (.valueOutOfRange (.bass v) 0 14))
      ∧ ZoneAttribute.validate (.balance v)
        = (if v ≤ 20 then .ok () else .error (.valueOutOfRange (.balance v) 0 20))
      ∧ ZoneAttribute.validate (.source v)
        = (if 1 ≤ v ∧ v ≤ 6 then .ok () else .error (.valueOutOfRange (.source v) 1 6)))
    ∧ (∀ b : Bool,
      ZoneAttribute.validate (.publicAnnouncement b) = .ok ()
      ∧ ZoneAttribute.validate (.power b) = .ok ()
      ∧ ZoneAttribute.validate (.mute b) = .ok ()
      ∧ ZoneAttribute.validate (.doNotDisturb b) = .ok ()
      ∧ ZoneAttribute.validate (.keypadConnected b) = .ok ()) := by
  constructor
  · intro v
    refine ⟨?_, ?_, ?_, ?_, ?_⟩ <;>
      simp [ZoneAttribute.validate, ranges.VOLUME, ranges.TREBLE, ranges.BASS,
        ranges.BALANCE, ranges.SOURCE]
  · intro b
    refine ⟨rfl, rfl, rfl, rfl, rfl⟩

/-! ## Theorems for the synchronization worker -/

theorem diffAttrs_some (base : String) (prev : ZoneStatus) (id : ZoneId)
    (l : List ZoneAttribute) :
    diffAttrs base (some prev) id l
      = (l.filter (fun a => !(prev.attributes.contains a))).map (attrStatusMessage base id) := by
  induction l with
  | nil => rfl
  | cons a rest ih =>
    by_cases hc : a ∈ prev.attributes <;>
      simp [diffAttrs, diffSkip, List.filter_cons, hc, ih]

theorem diffAttrs_none (base : String) (id : ZoneId) (l : List ZoneAttribute) :
    diffAttrs base none id l = l.map (attrStatusMessage base id) := by
  induction l with
  | nil => rfl
  | cons a rest ih => simp [diffAttrs, diffSkip, ih]

/-- C3: with a previous snapshot, exactly the attributes whose value is
not in the previous snapshot are published (one retained message each, in
attribute order); with no previous snapshot every attribute is published.
Concretely for zone 11: previous Volume 10 and newly polled Volume 10
publishes nothing; newly polled Volume 11 publishes exactly one retained
message on status/zone/11/volume with payload 11. -/
theorem worker_diff_publication :
    (∀ (base : String) (prev zs : ZoneStatus),
      publishZoneStatusDiff base (some prev) zs
        = (zs.attributes.filter (fun a => !(prev.attributes.contains a))).map
            (attrStatusMessage base zs.id))
    ∧ (∀ (base : String) (zs : ZoneStatus),
      publishZoneStatusDiff base none zs
        = zs.attributes.map (attrStatusMessage base zs.id))
    ∧ publishZoneStatusDiff "mwha/" (some (exampleStatus 10)) (exampleStatus 10) = []
    ∧ publishZoneStatusDiff "mwha/" (some (exampleStatus 10)) (exampleStatus 11)
        = [⟨"mwha/status/zone/11/volume", "11", true⟩] := by
  refine ⟨?_, ?_, ?_, ?_⟩
  · intro base prev zs
    exact diffAttrs_some base prev zs.id zs.attributes
  · intro base zs
    exact diffAttrs_none base zs.id zs.attributes
  · decide
  · decide

theorem alistLookup_insert_self {α β : Type} [DecidableEq α]
    (m : List (α × β)) (k : α) (v : β) :
    alistLookup (alistInsert m k v) k = some v := by
  induction m with
  | nil => simp [alistInsert, alistLookup]
  | cons kv rest ih =>
    by_cases h : kv.1 = k <;> simp [alistInsert, alistLookup, h, ih]

theorem alistLookup_insert_other {α β : Type} [DecidableEq α]
    (m : List (α × β)) (k k' : α) (v : β) (h : k ≠ k') :
    alistLookup (alistInsert m k v) k' = alistLookup m k' := by
  induction m with
  | nil => simp [alistInsert, alistLookup, h]
  | cons kv rest ih =>
    by_cases h2 : kv.1 = k <;> simp [alistInsert, alistLookup, h, h2, ih]

theorem drainLoop_changed (pairs : List (ZoneId × ZoneAttribute)) :
    ∀ adjustments,
    drainLoop (pairs.map fun p => ChannelMessage.zoneStatusChanged p.1 p.2) adjustments
      = some (pairs.foldl (fun m p => alistInsert m (p.1, p.2.discriminant) p) adjustments) := by
  induction pairs with
  | nil => intro adjustments; rfl
  | cons p rest ih => intro adjustments; simp [drainLoop, ih]

theorem alistLookup_foldl_insert (pairs : List (ZoneId × ZoneAttribute)) :
    ∀ (adjustments : List ((ZoneId × ZoneAttributeDiscriminants) × (ZoneId × ZoneAttribute)))
      (k : ZoneId × ZoneAttributeDiscriminants),
    alistLookup (pairs.foldl (fun m p => alistInsert m (p.1, p.2.discriminant) p) adjustments) k
      = (pairs.reverse.find? fun p => decide ((p.1, p.2.discriminant) = k)).or
          (alistLookup adjustments k) := by
  induction pairs with
  | nil => intro adjustments k; simp
  | cons p rest ih =>
    intro adjustments k
    simp only [List.foldl_cons, List.reverse_cons, List.find?_append]
    rw [ih]
    by_cases hk : (p.1, p.2.discriminant) = k
    · rw [Option.or_assoc]
      congr 1
      simp [List.find?, hk, alistLookup_insert_self]
    · rw [Option.or_assoc]
      congr 1
      simp [List.find?, hk]
      exact alistLookup_insert_other _ _ _ _ hk

/-- C2: the channel drain of one worker cycle coalesces pending changes
last-write-wins on the key (ZoneId, attribute kind) — the coalesced map
holds, for every key, exactly the latest queued change for it — and for
the queue (Zone 1/1, Volume 10) then (Zone 1/1, Volume 20) the cycle
performs exactly one device write, Volume 20 to zone 1/1. -/
theorem worker_coalesce_lww :
    (∀ (pairs : List (ZoneId × ZoneAttribute)) (k : ZoneId × ZoneAttributeDiscriminants),
      (drainLoop (pairs.map fun p => ChannelMessage.zoneStatusChanged p.1 p.2) []).map
          (fun adjustments => alistLookup adjustments k)
        = some (pairs.reverse.find? fun p => decide ((p.1, p.2.discriminant) = k)))
    ∧ cycleDeviceWrites
        [ChannelMessage.zoneStatusChanged (.zone 1 1) (.volume 10),
         ChannelMessage.zoneStatusChanged (.zone 1 1) (.volume 20)]
        = some [(ZoneId.zone 1 1, ZoneAttribute.volume 20)] := by
  constructor
  · intro pairs k
    rw [drainLoop_changed pairs []]
    simp [alistLookup_foldl_insert pairs [] k, alistLookup]
  · decide

/-! ## Theorems for the subscription correlation manager -/

theorem mqttRun_publish_inactive (t : String) (ps : List String) :
    ∀ (st : HandlerTableState) (rest : List MqttEvent),
    alistLookup st.active t = none →
    mqttRun st (ps.map (MqttEvent.incomingPublish t) ++ rest)
      = ((mqttRun st rest).1,
         ps.map (fun p => DispatchOutput.droppedUnknownTopic t p) ++ (mqttRun st rest).2) := by
  induction ps with
  | nil => intro st rest _; simp
  | cons p ps ih =>
    intro st rest h
    simp only [List.map_cons, List.cons_append]
    rw [mqttRun]
    simp only [mqttStep, h, reduceCtorEq, if_false]
    rw [ih st rest h]
    simp

theorem mqttRun_publish_active (t : String) (hid : Nat) (ps : List String) :
    ∀ (st : HandlerTableState) (rest : List MqttEvent),
    alistLookup st.active t = some hid →
    mqttRun st (ps.map (MqttEvent.incomingPublish t) ++ rest)
      = ((mqttRun st rest).1,
         ps.map (fun p => DispatchOutput.invoked hid t p) ++ (mqttRun st rest).2) := by
  induction ps with
  | nil => intro st rest _; simp
  | cons p ps ih =>
    intro st rest h
    simp only [List.map_cons, List.cons_append]
    rw [mqttRun]
    simp only [mqttStep, h, reduceCtorEq, if_false]
    rw [ih st rest h]
    simp

/-- C4: a handler registered through subscribe is not invoked for messages
on its topic that the handler thread processes before the SubAck with the
matching packet identifier — each such message is logged and dropped — and
after the SubAck is processed the handler is invoked exactly once per
matching message. -/
theorem mqtt_subscribe_correlation :
    ∀ (t : String) (hid pkid : Nat) (ps1 ps2 : List String),
    mqttRun (mqttSubscribe ⟨[], [], []⟩ t hid)
      (MqttEvent.outgoingSubscribe pkid
        :: (ps1.map (MqttEvent.incomingPublish t)
          ++ MqttEvent.incomingSubAck pkid
          :: ps2.map (MqttEvent.incomingPublish t)))
      = (⟨[], [], [(t, hid)]⟩,
         ps1.map (fun p => DispatchOutput.droppedUnknownTopic t p)
           ++ ps2.map (fun p => DispatchOutput.invoked hid t p)) := by
  intro t hid pkid ps1 ps2
  rw [mqttRun]
  simp only [mqttSubscribe, mqttStep, List.nil_append, alistInsert, reduceCtorEq, if_false]
  rw [mqttRun_publish_inactive t ps1 ⟨[], [(pkid, (t, hid))], []⟩ _ rfl]
  rw [mqttRun]
  simp only [mqttStep, alistLookup, alistRemove, alistInsert, reduceCtorEq, if_false, reduceIte]
  rw [← List.append_nil (List.map (MqttEvent.incomingPublish t) ps2)]
  rw [mqttRun_publish_active t hid ps2 ⟨[], [], [(t, hid)]⟩ [] (by simp [alistLookup])]
  simp [mqttRun]

/-! ## Theorems for the device protocol driver -/

theorem readUntil_append (marker : List Nat) :
    ∀ (x b tail : List Nat),
    marker.isSuffixOf (b ++ x) = true →
    (∀ k, k < x.length → marker.isSuffixOf (b ++ x.take k) = false) →
    readUntil marker b (x ++ tail) = some (b ++ x, tail) := by
  intro x
  induction x with
  | nil =>
    intro b tail hend _
    rw [readUntil.eq_def]
    simp only [List.append_nil] at hend
    simp [hend]
  | cons c x' ih =>
    intro b tail hend hmid
    have h0 : marker.isSuffixOf b = false := by
      have := hmid 0 (by simp)
      simpa using this
    rw [readUntil.eq_def]
    simp only [h0, Bool.false_eq_true, if_false, List.cons_append]
    have hend' : marker.isSuffixOf ((b ++ [c]) ++ x') = true := by
      simpa [List.append_assoc] using hend
    have hmid' : ∀ k, k < x'.length → marker.isSuffixOf ((b ++ [c]) ++ x'.take k) = false := by
      intro k hk
      have := hmid (k + 1) (by simpa using Nat.succ_lt_succ hk)
      simpa [List.take_succ_cons, List.append_assoc] using this
    have := ih (b ++ [c]) tail hend' hmid'
    simpa [List.append_assoc] using this

theorem readCommandResponse_frame (frame tail : List Nat)
    (hclean : ∀ k, k < (frame ++ END_OF_RESPONSE_MARKER).length →
      END_OF_RESPONSE_MARKER.isSuffixOf ((frame ++ END_OF_RESPONSE_MARKER).take k) = false) :
    readCommandResponse ((frame ++ END_OF_RESPONSE_MARKER) ++ tail)
      = (if frame = commandErrorBody then (.error .commandError, tail)
         else (.ok frame, tail)) := by
  have hend : END_OF_RESPONSE_MARKER.isSuffixOf ([] ++ (frame ++ END_OF_RESPONSE_MARKER)) = true := by
    simp only [List.nil_append, List.isSuffixOf_iff_suffix]
    exact List.suffix_append frame END_OF_RESPONSE_MARKER
  have hmid : ∀ k, k < (frame ++ END_OF_RESPONSE_MARKER).length →
      END_OF_RESPONSE_MARKER.isSuffixOf ([] ++ (frame ++ END_OF_RESPONSE_MARKER).take k) = false := by
    intro k hk
    simpa using hclean k hk
  have hread := readUntil_append END_OF_RESPONSE_MARKER (frame ++ END_OF_RESPONSE_MARKER) [] tail hend (by simpa using hmid)
  simp only [List.nil_append] at hread
  simp only [readCommandResponse, hread]
  have hlen : (frame ++ END_OF_RESPONSE_MARKER).length - END_OF_RESPONSE_MARKER.length
      = frame.length := by simp
  rw [hlen, List.take_left]

/-- C5: when the echoed frame read back differs from the command sent,
exec_command fails with the echo-mismatch (desynchronization) error; the
unread remainder is exactly the bytes after the echo frame, so no response
frame is read, regardless of expected_responses. -/
theorem exec_command_echo_mismatch :
    ∀ (command echo tail w : List Nat) (n : Nat),
    echo ≠ command →
    echo ≠ commandErrorBody →
    (∀ k, k < (echo ++ END_OF_RESPONSE_MARKER).length →
      END_OF_RESPONSE_MARKER.isSuffixOf ((echo ++ END_OF_RESPONSE_MARKER).take k) = false) →
    execCommand command n ⟨(echo ++ END_OF_RESPONSE_MARKER) ++ tail, w⟩
      = (.error (.echoMismatch echo command), ⟨tail, w ++ command ++ [13]⟩) := by
  intro command echo tail w n hne hnec hclean
  simp only [execCommand]
  rw [readCommandResponse_frame echo tail hclean]
  simp [hnec, hne]

/-- C5 witness: command "a" echoed as "b" with two pending bytes after the
echo frame; the call fails with the echo mismatch and leaves those two
bytes unread. -/
theorem exec_command_echo_mismatch_witness :
    execCommand [97] 5 ⟨([98] ++ END_OF_RESPONSE_MARKER) ++ [1, 2], []⟩
      = (.error (.echoMismatch [98] [97]), ⟨[1, 2], [] ++ [97] ++ [13]⟩) :=
  exec_command_echo_mismatch [97] [98] [1, 2] [] 5 (by decide) (by decide) (by decide)

/-- C8 counterexample: the claim promises that resync consumes every byte
of the arbitrary garbage that precedes the marker reply and nothing after
the reply. With garbage that itself contains the expected reply sequence
(here: the reply followed by byte 65, before the real reply), read_until
stops at the first occurrence: resync succeeds but leaves the garbage byte
65 and the whole real reply unread, where the claim requires an empty
remainder. -/
theorem resync_early_marker_counterexample :
    resync resyncMarkerSample ⟨(resyncReplySample ++ [65]) ++ resyncReplySample, []⟩
      = some ⟨65 :: resyncReplySample, [] ++ (resyncMarkerSample ++ [13])⟩
    ∧ (65 :: resyncReplySample : List Nat) ≠ [] := by
  refine ⟨by decide, by decide⟩

/-- C8 (amended): for every garbage prefix in which the expected
echo-plus-error reply for the fresh marker does not already occur — no
strict prefix of garbage-plus-reply ends with the reply — resync succeeds,
consumes exactly the garbage and the reply, and consumes nothing after the
reply. -/
theorem resync_discards_garbage :
    ∀ (marker pre tail w : List Nat),
    (∀ k, k < (pre ++ (marker ++ resyncReplySuffix)).length →
      (marker ++ resyncReplySuffix).isSuffixOf
        ((pre ++ (marker ++ resyncReplySuffix)).take k) = false) →
    resync marker ⟨(pre ++ (marker ++ resyncReplySuffix)) ++ tail, w⟩
      = some ⟨tail, w ++ (marker ++ [13])⟩ := by
  intro marker pre tail w hclean
  have hend : (marker ++ resyncReplySuffix).isSuffixOf
      ([] ++ (pre ++ (marker ++ resyncReplySuffix))) = true := by
    simp only [List.nil_append, List.isSuffixOf_iff_suffix]
    exact List.suffix_append pre (marker ++ resyncReplySuffix)
  have hread := readUntil_append (marker ++ resyncReplySuffix)
    (pre ++ (marker ++ resyncReplySuffix)) [] tail hend (by simpa using hclean)
  simp only [List.nil_append] at hread
  simp only [resync, hread]

/-- C8 witness: two stale bytes of garbage before the sample marker's
reply are consumed and discarded; nothing is left unread. -/
theorem resync_discards_garbage_witness :
    resync resyncMarkerSample ⟨(([0, 255] ++ (resyncMarkerSample ++ resyncReplySuffix)) ++ []), []⟩
      = some ⟨[], [] ++ (resyncMarkerSample ++ [13])⟩ :=
  resync_discards_garbage resyncMarkerSample [0, 255] [] [] (by decide)

/-- C7 counterexample: the claim promises that a response frame too short
to contain the zone id pair and ten attribute pairs makes zone_enquiry
return an error without panicking. For the response frame ">1" (echoed
command "?11" followed by the 2-byte frame), the parser indexes values[0]
of an empty parsed-value vector: the call panics instead of returning an
error. -/
theorem zone_enquiry_short_frame_counterexample :
    (zoneEnquiry (.zone 1 1) ⟨asciiOf "?11\r\n#>1\r\n#", []⟩).1
      = ParseOutcome.panicked
    ∧ ((ParseOutcome.panicked : ParseOutcome (List ZoneStatus)) ≠ ParseOutcome.err) := by
  refine ⟨by decide, by decide⟩

/-- C7 (amended): a frame containing a pair that does not parse as a
decimal u8 (two ASCII digits, or a leading '+' and a digit) fails the
whole call with an error; a frame whose pairs parse but whose leading pair
is not a valid zone id fails the whole call with an error; a call never
returns a partial result when any frame is bad; but an empty frame, a
frame with no full pair, or a frame whose pairs parse to fewer than eleven
values with a valid zone id, panics (out-of-bounds indexing) instead of
returning an error. -/
theorem zone_enquiry_malformed_frames :
    (∀ (b : Nat) (body : List Nat),
      parsePairs (chunksExact2 body) = none →
      parseZoneStatus (b :: body) = .err)
    ∧ (∀ (b : Nat) (body : List Nat) (v0 : Nat) (vs : List Nat) (e : ZoneIdError),
      parsePairs (chunksExact2 body) = some (v0 :: vs) →
      ZoneId.tryFrom v0 = .error e →
      parseZoneStatus (b :: body) = .err)
    ∧ (∀ (frames : List (List Nat)) (r : List Nat),
      r ∈ frames → (∀ s, parseZoneStatus r ≠ .ok s) →
      ∀ out, parseZoneStatuses frames ≠ .ok out)
    ∧ parseZoneStatus [] = .panicked
    ∧ (∀ (b : Nat) (body : List Nat),
      parsePairs (chunksExact2 body) = some [] →
      parseZoneStatus (b :: body) = .panicked)
    ∧ (∀ (b : Nat) (body : List Nat) (v0 : Nat) (vs : List Nat) (id : ZoneId),
      parsePairs (chunksExact2 body) = some (v0 :: vs) →
      ZoneId.tryFrom v0 = .ok id →
      vs.length < 10 →
      parseZoneStatus (b :: body) = .panicked) := by
  refine ⟨?_, ?_, ?_, rfl, ?_, ?_⟩
  · intro b body h
    simp only [parseZoneStatus, h]
  · intro b body v0 vs e h1 h2
    simp only [parseZoneStatus, h1, h2]
  · intro frames
    induction frames with
    | nil =>
      intro r hr
      cases hr
    | cons f fs ih =>
      intro r hr hnok out
      rcases List.mem_cons.mp hr with h1 | h2
      · subst h1
        cases hf : parseZoneStatus r with
        | err => simp [parseZoneStatuses, hf]
        | panicked => simp [parseZoneStatuses, hf]
        | ok s => exact absurd hf (hnok s)
      · cases hf : parseZoneStatus f with
        | err => simp [parseZoneStatuses, hf]
        | panicked => simp [parseZoneStatuses, hf]
        | ok s =>
          simp only [parseZoneStatuses, hf]
          cases hfs : parseZoneStatuses fs with
          | err => simp
          | panicked => simp
          | ok ss => exact absurd hfs (ih r h2 hnok ss)
  · intro b body h
    simp only [parseZoneStatus, h]
  · intro b body v0 vs id h1 h2 hlen
    simp only [parseZoneStatus, h1, h2]
    split
    · exfalso
      simp at hlen
      omega
    · rfl

/-- C7 amended witness: the amended theorem applied to the frame ">AB"
(unparseable pair), the frame ">07" (invalid zone id 7), and the frame
">11" (valid zone id but no attribute pairs, which panics). -/
theorem zone_enquiry_malformed_frames_witness :
    parseZoneStatus [62, 65, 66] = .err
    ∧ parseZoneStatus [62, 48, 55] = .err
    ∧ parseZoneStatus [62, 49, 49] = .panicked :=
  ⟨zone_enquiry_malformed_frames.1 62 [65, 66] (by decide),
   zone_enquiry_malformed_frames.2.1 62 [48, 55] 7 [] (.ampOutOfRange 7) (by decide) (by decide),
   zone_enquiry_malformed_frames.2.2.2.2.2 62 [49, 49] 11 [] (.zone 1 1) (by decide) (by decide) (by decide)⟩

/-- C6: the source's own intent (the `todo: return IO error` comment) and
the spec say an out-of-range numeric value must be rejected with an error
before any bytes are written; the code instead panics. Evaluating
set_zone_attribute at Volume 39 (range 0–38): the call reaches the
`panic!("out of range")` arm, aborting instead of returning an error, and
writes nothing to the device (the stream state is unchanged); `validate`
on the same value yields the ValueOutOfRange error the caller should have
seen. -/
theorem set_zone_attribute_out_of_range_panics :
    (∀ st : AmpState, setZoneAttribute (.zone 1 1) (.volume 39) st = (.panicOutOfRange, st))
    ∧ ZoneAttribute.validate (.volume 39)
        = .error (.valueOutOfRange (.volume 39) 0 38) :=
  ⟨fun _ => rfl, by decide⟩

/-! ## Theorem for the startup metadata publication -/

/-- C10: publish_metadata publishes every metadata message on a topic
built from the topic base — except the configured-zones array, which goes
out on the literal topic "\x7b\x7d/status/zones" (the source passes that
string without format!), not on "mwha/status/zones" as the spec requires
for the default base "mwha/". -/
theorem publish_metadata_zones_topic :
    (publishMetadata "mwha/" [(1, ⟨"CD", true⟩)] [(.zone 1 1, ⟨"Kitchen"⟩)]).map MqttMessage.topic
      = ["mwha/connected", "mwha/status/source/1/name", "mwha/status/source/1/enabled",
         "\x7b\x7d/status/zones", "mwha/status/zone/11/name", "mwha/status/zone/11/type"]
    ∧ ("\x7b\x7d/status/zones" : String) ≠ "mwha/status/zones"
    ∧ ∀ topicBase sources zones,
        ("\x7b\x7d/status/zones" : String)
          ∈ (publishMetadata topicBase sources zones).map MqttMessage.topic := by
  refine ⟨by decide, by decide, fun topicBase sources zones => ?_⟩
  simp [publishMetadata]
